import Mathlib

/-!
Verification of the subscription backend (src/api-routes.js) against its
natural-language specification.

Modelling conventions, used throughout:

* JavaScript values that may be absent (undefined or null) are modelled as
  Option. A field of a delta object that is written with an explicit null is
  distinguished from an absent field by nesting Option.
* Epoch timestamps are Nat. The source converts a non-null epoch e to the
  ISO-8601 string of e via new Date(e * 1000).toISOString(); since that
  rendering is an injective pure function of e, stored end dates are kept at
  epoch granularity: some e stands for the rendered string of e and none
  stands for null. All claims compare end dates only for equality with null
  or with another rendered epoch, so nothing is lost by this representation.
* External provider calls (Stripe) are modelled as oracle arguments: each
  handler takes the responses the provider would give, with Except capturing
  calls that may throw (a thrown provider call is caught by the enclosing
  try/catch of the handler).
* The Firestore document store is modelled as an association list from the
  document id to the document. The source writes through
  DocumentReference.update(data, precondition): per the Firestore client
  semantics consumed by the code, update sets each named top-level field to
  the given value (replacing it), fails on a missing document, and accepts no
  merge option (the second argument is parsed as a precondition, in which the
  key merge is unknown and ignored). Errors are caught and logged by the
  helper, so a failing update leaves the store unchanged.
-/

/-- A JS subscription-data object as written by the handlers. A field that is
absent from the object literal is none; the subscriptionEndDate field, when
present, holds either null (none) or a rendered epoch (some e). -/
structure SubscriptionData where
  status : Option String
  plan : Option String
  customerId : Option String
  subscriptionId : Option String
  subscriptionEndDate : Option (Option Nat)
deriving Repr, DecidableEq

/-- A document of the families collection: its subscriptionData field plus any
other top-level fields, which the code never touches. -/
structure FamilyRecord where
  subscriptionData : SubscriptionData
  otherFields : List (String × String)
deriving Repr, DecidableEq

/-- The document store: families collection keyed by user id. -/
abbrev Store := List (String × FamilyRecord)

/-- Lookup of the document with the given id (first binding wins). -/
def storeFind : Store → String → Option FamilyRecord
  | [], _ => none
  | (k, v) :: rest, u => if k = u then some v else storeFind rest u

/-- Overwrite the first binding of the given id, leaving the store unchanged
when the id is absent. -/
def storeSet : Store → String → FamilyRecord → Store
  | [], _, _ => []
  | (k, v) :: rest, u, r => if k = u then (k, r) :: rest else (k, v) :: storeSet rest u r

/-- Embedding of updateUserSubscription (src/api-routes.js lines 376-393).
The guard mirrors the JS falsiness test on userId (undefined, null or the
empty string). The write goes through DocumentReference.update with the data
map containing the single field subscriptionData, so that field is set to the
given object wholesale; update on a missing document throws NOT_FOUND, which
the catch block swallows, leaving the store unchanged. -/
def updateUserSubscription (store : Store) (userId : Option String)
    (subscriptionData : SubscriptionData) : Store :=
  match userId with
  | none => store
  | some u =>
    if u = "" then store
    else
      match storeFind store u with
      | none => store
      | some r => storeSet store u { r with subscriptionData := subscriptionData }

/-- Modelled from the spec: the record store primitive the specification
describes in section 4.5 as a merge-update of the record at userId with a
SubscriptionData delta, in which every field absent from the delta keeps its
previously stored value. Declared only to compare the code against the
specified merge semantics; the code authority is updateUserSubscription. -/
def mergeSubscriptionData (old delta : SubscriptionData) : SubscriptionData :=
  { status := match delta.status with | some s => some s | none => old.status
    plan := match delta.plan with | some p => some p | none => old.plan
    customerId := match delta.customerId with | some c => some c | none => old.customerId
    subscriptionId := match delta.subscriptionId with | some s => some s | none => old.subscriptionId
    subscriptionEndDate := match delta.subscriptionEndDate with
      | some d => some d
      | none => old.subscriptionEndDate }

/-- Modelled from the spec: updateUserSubscription as the specification
describes it, merging the delta into the stored sub-document instead of
replacing it. -/
def updateUserSubscription_specMerge (store : Store) (userId : Option String)
    (delta : SubscriptionData) : Store :=
  match userId with
  | none => store
  | some u =>
    if u = "" then store
    else
      match storeFind store u with
      | none => store
      | some r =>
        storeSet store u
          { r with subscriptionData := mergeSubscriptionData r.subscriptionData delta }

/-! ### Stripe-side data, as consumed by the handlers -/

/-- The recurring part of a price (interval is month or year). -/
structure Recurring where
  interval : String
deriving Repr, DecidableEq

/-- A price object; recurring may be null for one-time prices. -/
structure Price where
  recurring : Option Recurring
deriving Repr, DecidableEq

/-- A subscription line item. current_period_end may be absent. -/
structure SubItem where
  current_period_end : Option Nat
  price : Option Price
deriving Repr, DecidableEq

/-- The items list of a subscription; the inner data array may be absent. -/
structure SubItems where
  data : Option (List SubItem)
deriving Repr, DecidableEq

/-- The metadata object of a subscription; userId may be absent. -/
structure SubMetadata where
  userId : Option String
deriving Repr, DecidableEq

/-- A Stripe subscription, restricted to the fields the code consumes. -/
structure StripeSubscription where
  id : String
  status : String
  customer : String
  metadata : Option SubMetadata
  items : Option SubItems
  current_period_end : Option Nat
deriving Repr, DecidableEq

/-- A Stripe customer, restricted to the fields the code consumes. -/
structure Customer where
  id : String
  email : String
deriving Repr, DecidableEq

/-! ### Period-end derivation

The four handler branches that derive a subscription end date (restore lines
166-175, checkout.session.completed lines 228-239, customer.subscription.updated
lines 279-290, invoice.payment_failed lines 320-331) contain the same code,
embedded once below as computeSubscriptionEndDate. -/

/-- Embedding of Array.prototype.filter(Boolean) over the mapped array of
current_period_end values: undefined and null are dropped, and so is the
number 0, since 0 is falsy in JS. -/
def filterTruthy : List (Option Nat) → List Nat
  | [] => []
  | none :: rest => filterTruthy rest
  | some n :: rest => if n = 0 then filterTruthy rest else n :: filterTruthy rest

/-- Embedding of Math.min over a spread list; the source only applies it to a
non-empty list (guarded by ends.length greater than 0). -/
def listMin : List Nat → Option Nat
  | [] => none
  | x :: xs => some (xs.foldl Nat.min x)

/-- Embedding of the period-end derivation block shared by the four branches:
guard on items, items.data and a positive length, map each item to its
current_period_end, filter(Boolean), take Math.min when any values remain,
and finally the ternary periodEnd-test (0 and null both yield null). -/
def computeSubscriptionEndDate (items : Option SubItems) : Option Nat :=
  let periodEnd : Option Nat :=
    match items with
    | none => none
    | some its =>
      match its.data with
      | none => none
      | some ds =>
        if ds.length > 0 then
          let ends := filterTruthy (ds.map (·.current_period_end))
          if ends.length > 0 then listMin ends else none
        else none
  match periodEnd with
  | none => none
  | some e => if e = 0 then none else some e

/-- The epochs the items of a subscription carry, in order, with absence kept. -/
def itemEpochs (items : Option SubItems) : List (Option Nat) :=
  match items with
  | none => []
  | some its =>
    match its.data with
    | none => []
    | some ds => ds.map (·.current_period_end)

/-- Specification-side period end: drop the missing period ends (absent, null,
or the falsy epoch 0, which the truthiness filter treats as missing), take the
minimum if any remain, else null. -/
def specPeriodEnd (epochs : List (Option Nat)) : Option Nat :=
  listMin ((epochs.filterMap id).filter (fun n => !(n == 0)))

/-! ### Webhook events and the webhook handler -/

/-- The metadata attached to a checkout session at creation (src/api-routes.js
lines 58-63); the handler reads userId and plan. -/
structure SessionMetadata where
  userId : Option String
  plan : Option String
deriving Repr, DecidableEq

/-- A checkout session as consumed by the checkout.session.completed branch. -/
structure CheckoutSession where
  id : String
  subscription : Option String
  metadata : Option SessionMetadata
  customer : Option String
deriving Repr, DecidableEq

/-- An invoice as consumed by the invoice branches. -/
structure Invoice where
  subscription : Option String
deriving Repr, DecidableEq

/-- The event kinds the switch statement of the webhook handler distinguishes,
with the data object each branch reads. -/
inductive WebhookEvent where
  | checkoutSessionCompleted (session : CheckoutSession)
  | invoicePaymentSucceeded (invoice : Invoice)
  | customerSubscriptionUpdated (sub : StripeSubscription)
  | customerSubscriptionDeleted (sub : StripeSubscription)
  | invoicePaymentFailed (invoice : Invoice)
  | otherEvent (eventType : String)
deriving Repr, DecidableEq

/-- The type string of an event, as the switch scrutinizes it. -/
def eventTypeString : WebhookEvent → String
  | .checkoutSessionCompleted _ => "checkout.session.completed"
  | .invoicePaymentSucceeded _ => "invoice.payment_succeeded"
  | .customerSubscriptionUpdated _ => "customer.subscription.updated"
  | .customerSubscriptionDeleted _ => "customer.subscription.deleted"
  | .invoicePaymentFailed _ => "invoice.payment_failed"
  | .otherEvent t => t

/-- Outcome of one webhook delivery: the HTTP status returned, the single
updateUserSubscription call the taken branch performs (none when the branch
writes nothing), and the event type the switch processed (none when signature
verification already rejected the request). Every branch of the switch makes
at most one store write, so one optional write captures the whole effect. -/
structure WebhookOutcome where
  httpStatus : Nat
  write : Option (Option String × SubscriptionData)
  processedType : Option String
deriving Repr, DecidableEq

/-- The object literal written by the customer.subscription.deleted branch
(lines 301-304) and by the cancel-subscription endpoint (lines 363-366):
status cancelled, subscriptionEndDate explicit null, no other fields. -/
def cancelledSubscriptionData : SubscriptionData :=
  { status := some "cancelled"
    plan := none
    customerId := none
    subscriptionId := none
    subscriptionEndDate := some none }

/-- The status translation table of the customer.subscription.updated branch
(lines 270-275), an object literal indexed by the provider status. -/
def statusMap : List (String × String) :=
  [("active", "active"), ("past_due", "expired"), ("canceled", "cancelled"), ("unpaid", "expired")]

/-- Embedding of the lookup statusMap[status] with default, line 278: the
or-else falls back to expired for statuses outside the table (every value in
the table is a non-empty, hence truthy, string). -/
def mapUpdatedStatus (s : String) : String :=
  (statusMap.lookup s).getD "expired"

/-- Embedding of the checkout.session.completed branch (lines 215-247). The
guard requires a truthy session.subscription, a present metadata object, and
metadata.userId different from the string pending (an absent userId passes
this comparison). The branch then retrieves the subscription; a throwing
retrieval is caught by the enclosing try/catch and yields a 500. -/
def handleCheckoutCompleted (retrieveSub : String → Except String StripeSubscription)
    (session : CheckoutSession) : WebhookOutcome :=
  match session.subscription, session.metadata with
  | some sid, some m =>
    if sid = "" then { httpStatus := 200, write := none, processedType := some "checkout.session.completed" }
    else if m.userId = some "pending" then { httpStatus := 200, write := none, processedType := some "checkout.session.completed" }
    else
      match retrieveSub sid with
      | .error _ => { httpStatus := 500, write := none, processedType := some "checkout.session.completed" }
      | .ok sub =>
        { httpStatus := 200
          write := some (m.userId,
            { status := some "active"
              plan := m.plan
              customerId := session.customer
              subscriptionId := some sid
              subscriptionEndDate := some (computeSubscriptionEndDate sub.items) })
          processedType := some "checkout.session.completed" }
  | _, _ => { httpStatus := 200, write := none, processedType := some "checkout.session.completed" }

/-- Embedding of the invoice.payment_succeeded branch (lines 249-262): it
retrieves the subscription and its customer but performs no local write; a
throwing retrieval yields a 500 through the enclosing try/catch. -/
def handleInvoicePaymentSucceeded (retrieveSub : String → Except String StripeSubscription)
    (retrieveCust : String → Except String Customer) (invoice : Invoice) : WebhookOutcome :=
  match invoice.subscription with
  | some sid =>
    if sid = "" then { httpStatus := 200, write := none, processedType := some "invoice.payment_succeeded" }
    else
      match retrieveSub sid with
      | .error _ => { httpStatus := 500, write := none, processedType := some "invoice.payment_succeeded" }
      | .ok sub =>
        match retrieveCust sub.customer with
        | .error _ => { httpStatus := 500, write := none, processedType := some "invoice.payment_succeeded" }
        | .ok _ => { httpStatus := 200, write := none, processedType := some "invoice.payment_succeeded" }
  | none => { httpStatus := 200, write := none, processedType := some "invoice.payment_succeeded" }

/-- Embedding of the customer.subscription.updated branch (lines 264-295):
when metadata.userId is present, truthy and not pending, write the mapped
status together with the recomputed subscription end date. -/
def handleSubscriptionUpdated (sub : StripeSubscription) : WebhookOutcome :=
  match sub.metadata with
  | some m =>
    match m.userId with
    | some u =>
      if u = "" then { httpStatus := 200, write := none, processedType := some "customer.subscription.updated" }
      else if u = "pending" then { httpStatus := 200, write := none, processedType := some "customer.subscription.updated" }
      else
        { httpStatus := 200
          write := some (some u,
            { status := some (mapUpdatedStatus sub.status)
              plan := none
              customerId := none
              subscriptionId := none
              subscriptionEndDate := some (computeSubscriptionEndDate sub.items) })
          processedType := some "customer.subscription.updated" }
    | none => { httpStatus := 200, write := none, processedType := some "customer.subscription.updated" }
  | none => { httpStatus := 200, write := none, processedType := some "customer.subscription.updated" }

/-- Embedding of the customer.subscription.deleted branch (lines 297-307):
when metadata.userId is truthy, write status cancelled with a null end date. -/
def handleSubscriptionDeleted (sub : StripeSubscription) : WebhookOutcome :=
  match sub.metadata with
  | some m =>
    match m.userId with
    | some u =>
      if u = "" then { httpStatus := 200, write := none, processedType := some "customer.subscription.deleted" }
      else
        { httpStatus := 200
          write := some (some u, cancelledSubscriptionData)
          processedType := some "customer.subscription.deleted" }
    | none => { httpStatus := 200, write := none, processedType := some "customer.subscription.deleted" }
  | none => { httpStatus := 200, write := none, processedType := some "customer.subscription.deleted" }

/-- Embedding of the invoice.payment_failed branch (lines 309-337): retrieve
the subscription of the invoice and, when its metadata.userId is truthy, write
status expired with the recomputed end date. -/
def handleInvoicePaymentFailed (retrieveSub : String → Except String StripeSubscription)
    (invoice : Invoice) : WebhookOutcome :=
  match invoice.subscription with
  | some sid =>
    if sid = "" then { httpStatus := 200, write := none, processedType := some "invoice.payment_failed" }
    else
      match retrieveSub sid with
      | .error _ => { httpStatus := 500, write := none, processedType := some "invoice.payment_failed" }
      | .ok sub =>
        match sub.metadata with
        | some m =>
          match m.userId with
          | some u =>
            if u = "" then { httpStatus := 200, write := none, processedType := some "invoice.payment_failed" }
            else
              { httpStatus := 200
                write := some (some u,
                  { status := some "expired"
                    plan := none
                    customerId := none
                    subscriptionId := none
                    subscriptionEndDate := some (computeSubscriptionEndDate sub.items) })
                processedType := some "invoice.payment_failed" }
          | none => { httpStatus := 200, write := none, processedType := some "invoice.payment_failed" }
        | none => { httpStatus := 200, write := none, processedType := some "invoice.payment_failed" }
  | none => { httpStatus := 200, write := none, processedType := some "invoice.payment_failed" }

/-- Embedding of the webhook endpoint (lines 196-349). The event argument is
the result of stripe.webhooks.constructEvent over the raw body, signature
header and shared secret: none when the signature did not verify and the
constructor threw, in which case the handler answers 400 before the switch;
otherwise the switch dispatches on the event type, unhandled kinds are only
logged, and the handler acknowledges with 200. -/
def runWebhook (retrieveSub : String → Except String StripeSubscription)
    (retrieveCust : String → Except String Customer)
    (event : Option WebhookEvent) : WebhookOutcome :=
  match event with
  | none => { httpStatus := 400, write := none, processedType := none }
  | some ev =>
    match ev with
    | .checkoutSessionCompleted session => handleCheckoutCompleted retrieveSub session
    | .invoicePaymentSucceeded invoice => handleInvoicePaymentSucceeded retrieveSub retrieveCust invoice
    | .customerSubscriptionUpdated sub => handleSubscriptionUpdated sub
    | .customerSubscriptionDeleted sub => handleSubscriptionDeleted sub
    | .invoicePaymentFailed invoice => handleInvoicePaymentFailed retrieveSub invoice
    | .otherEvent t => { httpStatus := 200, write := none, processedType := some t }

/-- Apply the optional store write of an outcome through the update helper. -/
def applyWrite (store : Store) (w : Option (Option String × SubscriptionData)) : Store :=
  match w with
  | some (u, d) => updateUserSubscription store u d
  | none => store

/-! ### The cancel-subscription endpoint -/

/-- Outcome of the cancel-subscription endpoint: HTTP status, the optional
local write, and whether the provider cancellation call was issued. -/
structure CancelOutcome where
  httpStatus : Nat
  write : Option (Option String × SubscriptionData)
  providerCalled : Bool
deriving Repr, DecidableEq

/-- Embedding of the cancel-subscription endpoint (lines 352-373): missing or
falsy userId or subscriptionId answers 400 before any provider call; a
throwing provider cancellation is caught and answers 500 without a local
write; on success the endpoint writes status cancelled with a null end date
through updateUserSubscription and then answers 200. -/
def runCancelSubscription (cancel : String → Except String String)
    (userId subscriptionId : Option String) : CancelOutcome :=
  match userId, subscriptionId with
  | some u, some s =>
    if u = "" then { httpStatus := 400, write := none, providerCalled := false }
    else if s = "" then { httpStatus := 400, write := none, providerCalled := false }
    else
      match cancel s with
      | .error _ => { httpStatus := 500, write := none, providerCalled := true }
      | .ok _ =>
        { httpStatus := 200
          write := some (some u, cancelledSubscriptionData)
          providerCalled := true }
  | _, _ => { httpStatus := 400, write := none, providerCalled := false }

/-! ### The verify-payment endpoint -/

/-- Responses of the verify-payment endpoint. -/
inductive VerifyResponse where
  | badRequest (msg : String)
  | payment (hasValidPayment : Bool)
  | serverError (msg : String)
deriving Repr, DecidableEq

/-- Embedding of the JS expiry test on line 116: the comparison
subscription.current_period_end less than now is false when the field is
absent (a comparison against undefined is false). -/
def subExpired (sub : StripeSubscription) (now : Nat) : Bool :=
  match sub.current_period_end with
  | some pe => decide (pe < now)
  | none => false

/-- Embedding of the verify-payment endpoint (lines 77-128). The two provider
calls are passed as oracles: listCustomers is the customer list the provider
returns for the given email (limit 1, first match used), and listActiveSubs
gives, per customer id, the subscriptions with active status (limit 1). A
throwing call is caught and answers 500. -/
def runVerifyPayment (email : Option String)
    (listCustomers : Except String (List Customer))
    (listActiveSubs : String → Except String (List StripeSubscription))
    (now : Nat) : VerifyResponse :=
  match email with
  | none => .badRequest "Email is required"
  | some e =>
    if e = "" then .badRequest "Email is required"
    else
      match listCustomers with
      | .error msg => .serverError msg
      | .ok cs =>
        match cs with
        | [] => .payment false
        | c :: _ =>
          match listActiveSubs c.id with
          | .error msg => .serverError msg
          | .ok subs =>
            match subs with
            | [] => .payment false
            | sub :: _ => if subExpired sub now then .payment false else .payment true

/-! ### The restore-subscription endpoint -/

/-- The subscription summary the restore endpoint returns on success; the
current_period_end field holds the derived end date at epoch granularity. -/
structure RestoreSummary where
  id : String
  status : String
  customer : String
  plan : String
  current_period_end : Option Nat
deriving Repr, DecidableEq

/-- Responses of the restore-subscription endpoint. -/
inductive RestoreResponse where
  | subscription (s : Option RestoreSummary)
  | serverError (msg : String)
deriving Repr, DecidableEq

/-- The unguarded access subscription.items.data[0].price.recurring.interval
on line 163: any absent link in the chain throws, which the enclosing
try/catch maps to a 500. -/
def planInterval (sub : StripeSubscription) : Except String String :=
  match sub.items with
  | none => .error "TypeError"
  | some its =>
    match its.data with
    | none => .error "TypeError"
    | some [] => .error "TypeError"
    | some (it :: _) =>
      match it.price with
      | none => .error "TypeError"
      | some p =>
        match p.recurring with
        | none => .error "TypeError"
        | some r => .ok r.interval

/-- Embedding of the restore-subscription endpoint (lines 131-193). The body
destructures userId and email but uses only email, and only as the argument
of the customer lookup, whose response is the listCustomers oracle; userId
flows nowhere. On success the summary carries the interval normalized to the
application plan vocabulary and the derived period end. -/
def runRestoreSubscription (userId email : Option String)
    (listCustomers : Except String (List Customer))
    (listActiveSubs : String → Except String (List StripeSubscription)) : RestoreResponse :=
  match listCustomers with
  | .error msg => .serverError msg
  | .ok [] => .subscription none
  | .ok (c :: _) =>
    match listActiveSubs c.id with
    | .error msg => .serverError msg
    | .ok [] => .subscription none
    | .ok (sub :: _) =>
      match planInterval sub with
      | .error msg => .serverError msg
      | .ok interval =>
        .subscription (some
          { id := sub.id
            status := sub.status
            customer := c.id
            plan := if interval = "year" then "yearly" else "monthly"
            current_period_end := computeSubscriptionEndDate sub.items })

/-- Oracle standing for a provider whose calls all throw; used only at inputs
where the handler under scrutiny never consults the provider. -/
def errSubOracle : String → Except String StripeSubscription :=
  fun _ => Except.error "provider error"

/-- Oracle standing for a provider whose customer retrievals all throw. -/
def errCustOracle : String → Except String Customer :=
  fun _ => Except.error "provider error"

/-- A subscription as delivered inside a customer.subscription.updated event
with provider status canceled, a real userId in its metadata, and one line
item whose period end is epoch 100. -/
def sampleCanceledUpdatedSub : StripeSubscription :=
  { id := "sub_1", status := "canceled", customer := "cus_1"
    metadata := some { userId := some "u1" }
    items := some { data := some [{ current_period_end := some 100, price := none }] }
    current_period_end := none }

/-- A subscription as delivered inside a customer.subscription.deleted event
with a real userId in its metadata. -/
def sampleDeletedSub : StripeSubscription :=
  { id := "sub_1", status := "canceled", customer := "cus_1"
    metadata := some { userId := some "u1" }
    items := none
    current_period_end := none }

/-- A stored record whose subscriptionData has every field populated; used to
observe which fields a write keeps. -/
def sampleFullRecord : FamilyRecord :=
  { subscriptionData :=
      { status := some "active", plan := some "monthly", customerId := some "cus_1"
        subscriptionId := some "sub_1", subscriptionEndDate := some (some 200) }
    otherFields := [] }

/-! ### Lemmas about the period-end derivation -/

theorem filterTruthy_eq (xs : List (Option Nat)) :
    filterTruthy xs = (xs.filterMap id).filter (fun n => !(n == 0)) := by
  induction xs with
  | nil => rfl
  | cons x rest ih =>
    cases x with
    | none => simpa [filterTruthy] using ih
    | some n =>
      by_cases h : n = 0
      · simp [filterTruthy, h, ih]
      · simp [filterTruthy, h, ih]

theorem filterTruthy_ne_zero (xs : List (Option Nat)) :
    ∀ n ∈ filterTruthy xs, n ≠ 0 := by
  induction xs with
  | nil => intro n hn; cases hn
  | cons x rest ih =>
    intro n hn
    cases x with
    | none => exact ih n hn
    | some m =>
      by_cases h : m = 0
      · simp only [filterTruthy, if_pos h] at hn
        exact ih n hn
      · simp only [filterTruthy, if_neg h] at hn
        rcases List.mem_cons.mp hn with h1 | h2
        · exact h1 ▸ h
        · exact ih n h2

theorem foldl_min_ne_zero (xs : List Nat) :
    ∀ x, x ≠ 0 → (∀ y ∈ xs, y ≠ 0) → xs.foldl Nat.min x ≠ 0 := by
  induction xs with
  | nil => intro x hx _; simpa using hx
  | cons y ys ih =>
    intro x hx hall
    have hy : y ≠ 0 := hall y (by simp)
    have hmin : Nat.min x y ≠ 0 := by
      have h1 : 1 ≤ Nat.min x y :=
        Nat.le_min.mpr ⟨Nat.one_le_iff_ne_zero.mpr hx, Nat.one_le_iff_ne_zero.mpr hy⟩
      omega
    have hall' : ∀ z ∈ ys, z ≠ 0 := fun z hz => hall z (by simp [hz])
    simpa using ih (Nat.min x y) hmin hall'

theorem listMin_ne_zero (xs : List Nat) (hall : ∀ y ∈ xs, y ≠ 0) :
    ∀ e, listMin xs = some e → e ≠ 0 := by
  intro e he
  cases xs with
  | nil => cases he
  | cons x rest =>
    have hx : x ≠ 0 := hall x (by simp)
    have hrest : ∀ y ∈ rest, y ≠ 0 := fun y hy => hall y (by simp [hy])
    have := foldl_min_ne_zero rest x hx hrest
    simp only [listMin, Option.some.injEq] at he
    exact he ▸ this

theorem computeSubscriptionEndDate_eq_spec (items : Option SubItems) :
    computeSubscriptionEndDate items = specPeriodEnd (itemEpochs items) := by
  cases items with
  | none => rfl
  | some its =>
    cases hdata : its.data with
    | none => simp [computeSubscriptionEndDate, itemEpochs, specPeriodEnd, hdata, listMin]
    | some ds =>
      cases ds with
      | nil => simp [computeSubscriptionEndDate, itemEpochs, specPeriodEnd, hdata, listMin]
      | cons d rest =>
        cases hends : filterTruthy (d.current_period_end :: rest.map (·.current_period_end)) with
        | nil =>
          simp [computeSubscriptionEndDate, itemEpochs, specPeriodEnd, hdata,
            ← filterTruthy_eq, hends, listMin]
        | cons e es =>
          have hne : ∀ n ∈ (e :: es : List Nat), n ≠ 0 := by
            rw [← hends]; exact filterTruthy_ne_zero _
          have hm0 : es.foldl Nat.min e ≠ 0 := by
            have hx : e ≠ 0 := hne e (by simp)
            have hrest : ∀ y ∈ es, y ≠ 0 := fun y hy => hne y (by simp [hy])
            exact foldl_min_ne_zero es e hx hrest
          simp [computeSubscriptionEndDate, itemEpochs, specPeriodEnd, hdata,
            ← filterTruthy_eq, hends, listMin, hm0]
/-! ### Lemmas about the store primitives -/

theorem storeFind_storeSet (s : Store) (u : String) (r : FamilyRecord) :
    storeFind (storeSet s u r) u = (storeFind s u).map (fun _ => r) := by
  induction s with
  | nil => rfl
  | cons kv rest ih =>
    obtain ⟨k, v⟩ := kv
    by_cases h : k = u
    · simp [storeSet, storeFind, h]
    · simp [storeSet, storeFind, h, ih]

theorem storeSet_storeSet (s : Store) (u : String) (r : FamilyRecord) :
    storeSet (storeSet s u r) u r = storeSet s u r := by
  induction s with
  | nil => rfl
  | cons kv rest ih =>
    obtain ⟨k, v⟩ := kv
    by_cases h : k = u
    · simp [storeSet, h]
    · simp [storeSet, h, ih]

theorem updateUserSubscription_find (store : Store) (u : String) (d : SubscriptionData)
    (r : FamilyRecord) (hu : u ≠ "") (hr : storeFind store u = some r) :
    storeFind (updateUserSubscription store (some u) d) u =
      some { r with subscriptionData := d } := by
  simp [updateUserSubscription, hu, hr, storeFind_storeSet]

theorem updateUserSubscription_idem (store : Store) (userId : Option String)
    (d : SubscriptionData) :
    updateUserSubscription (updateUserSubscription store userId d) userId d =
      updateUserSubscription store userId d := by
  match userId with
  | none => rfl
  | some u =>
    by_cases hu : u = ""
    · simp [updateUserSubscription, hu]
    · cases hr : storeFind store u with
      | none => simp [updateUserSubscription, hu, hr]
      | some r =>
        have h2 : storeFind (storeSet store u { r with subscriptionData := d }) u =
            some { r with subscriptionData := d } := by
          simp [storeFind_storeSet, hr]
        simp [updateUserSubscription, hu, hr, h2, storeSet_storeSet]

/-! ### Lemmas about the status translation -/

theorem mapUpdatedStatus_spec (s : String) :
    mapUpdatedStatus s =
      if s = "active" then "active"
      else if s = "past_due" then "expired"
      else if s = "canceled" then "cancelled"
      else if s = "unpaid" then "expired"
      else "expired" := by
  by_cases h1 : s = "active"
  · subst h1; decide
  · by_cases h2 : s = "past_due"
    · subst h2; decide
    · by_cases h3 : s = "canceled"
      · subst h3; decide
      · by_cases h4 : s = "unpaid"
        · subst h4; decide
        · have e1 : (s == "active") = false := beq_eq_false_iff_ne.mpr h1
          have e2 : (s == "past_due") = false := beq_eq_false_iff_ne.mpr h2
          have e3 : (s == "canceled") = false := beq_eq_false_iff_ne.mpr h3
          have e4 : (s == "unpaid") = false := beq_eq_false_iff_ne.mpr h4
          simp [mapUpdatedStatus, statusMap, List.lookup, e1, e2, e3, e4, h1, h2, h3, h4]

theorem mapUpdatedStatus_eq_cancelled (s : String) :
    mapUpdatedStatus s = "cancelled" ↔ s = "canceled" := by
  rw [mapUpdatedStatus_spec]
  split_ifs with h1 h2 h3 h4
  · subst h1; decide
  · subst h2; decide
  · subst h3; simp
  · subst h4; decide
  · constructor
    · intro h; exact absurd h (by decide)
    · intro h; exact absurd h h3

/-! ### Characterization of the writes each webhook branch can make -/

theorem handleCheckoutCompleted_write_status (rS : String → Except String StripeSubscription)
    (session : CheckoutSession) (u : Option String) (d : SubscriptionData)
    (hw : (handleCheckoutCompleted rS session).write = some (u, d)) :
    d.status = some "active" := by
  cases hsub : session.subscription with
  | none => simp [handleCheckoutCompleted, hsub] at hw
  | some sid =>
    cases hmeta : session.metadata with
    | none => simp [handleCheckoutCompleted, hsub, hmeta] at hw
    | some m =>
      by_cases h1 : sid = ""
      · simp [handleCheckoutCompleted, hsub, hmeta, h1] at hw
      · by_cases h2 : m.userId = some "pending"
        · simp [handleCheckoutCompleted, hsub, hmeta, h1, h2] at hw
        · cases hrs : rS sid with
          | error msg => simp [handleCheckoutCompleted, hsub, hmeta, h1, h2, hrs] at hw
          | ok sub =>
            simp [handleCheckoutCompleted, hsub, hmeta, h1, h2, hrs] at hw
            obtain ⟨hu', hd'⟩ := hw
            subst hd'
            rfl

theorem handleInvoicePaymentSucceeded_write_none (rS : String → Except String StripeSubscription)
    (rC : String → Except String Customer) (inv : Invoice) :
    (handleInvoicePaymentSucceeded rS rC inv).write = none := by
  cases hsub : inv.subscription with
  | none => simp [handleInvoicePaymentSucceeded, hsub]
  | some sid =>
    by_cases h : sid = ""
    · simp [handleInvoicePaymentSucceeded, hsub, h]
    · cases hrs : rS sid with
      | error msg => simp [handleInvoicePaymentSucceeded, hsub, h, hrs]
      | ok sub =>
        cases hrc : rC sub.customer with
        | error msg => simp [handleInvoicePaymentSucceeded, hsub, h, hrs, hrc]
        | ok c => simp [handleInvoicePaymentSucceeded, hsub, h, hrs, hrc]

theorem handleSubscriptionUpdated_write (sub : StripeSubscription) (u : Option String)
    (d : SubscriptionData)
    (hw : (handleSubscriptionUpdated sub).write = some (u, d)) :
    d.status = some (mapUpdatedStatus sub.status) ∧
      d.subscriptionEndDate = some (computeSubscriptionEndDate sub.items) := by
  cases hmeta : sub.metadata with
  | none => simp [handleSubscriptionUpdated, hmeta] at hw
  | some m =>
    cases huid : m.userId with
    | none => simp [handleSubscriptionUpdated, hmeta, huid] at hw
    | some uu =>
      by_cases h1 : uu = ""
      · simp [handleSubscriptionUpdated, hmeta, huid, h1] at hw
      · by_cases h2 : uu = "pending"
        · simp [handleSubscriptionUpdated, hmeta, huid, h1, h2] at hw
        · simp [handleSubscriptionUpdated, hmeta, huid, h1, h2] at hw
          obtain ⟨hu', hd'⟩ := hw
          subst hd'
          exact ⟨rfl, rfl⟩

theorem handleSubscriptionDeleted_write (sub : StripeSubscription) (u : Option String)
    (d : SubscriptionData)
    (hw : (handleSubscriptionDeleted sub).write = some (u, d)) :
    d = cancelledSubscriptionData := by
  cases hmeta : sub.metadata with
  | none => simp [handleSubscriptionDeleted, hmeta] at hw
  | some m =>
    cases huid : m.userId with
    | none => simp [handleSubscriptionDeleted, hmeta, huid] at hw
    | some uu =>
      by_cases h1 : uu = ""
      · simp [handleSubscriptionDeleted, hmeta, huid, h1] at hw
      · simp [handleSubscriptionDeleted, hmeta, huid, h1] at hw
        obtain ⟨hu', hd'⟩ := hw
        subst hd'
        rfl

theorem handleInvoicePaymentFailed_write_status (rS : String → Except String StripeSubscription)
    (inv : Invoice) (u : Option String) (d : SubscriptionData)
    (hw : (handleInvoicePaymentFailed rS inv).write = some (u, d)) :
    d.status = some "expired" := by
  cases hsub : inv.subscription with
  | none => simp [handleInvoicePaymentFailed, hsub] at hw
  | some sid =>
    by_cases h1 : sid = ""
    · simp [handleInvoicePaymentFailed, hsub, h1] at hw
    · cases hrs : rS sid with
      | error msg => simp [handleInvoicePaymentFailed, hsub, h1, hrs] at hw
      | ok sub =>
        cases hmeta : sub.metadata with
        | none => simp [handleInvoicePaymentFailed, hsub, h1, hrs, hmeta] at hw
        | some m =>
          cases huid : m.userId with
          | none => simp [handleInvoicePaymentFailed, hsub, h1, hrs, hmeta, huid] at hw
          | some uu =>
            by_cases h2 : uu = ""
            · simp [handleInvoicePaymentFailed, hsub, h1, hrs, hmeta, huid, h2] at hw
            · simp [handleInvoicePaymentFailed, hsub, h1, hrs, hmeta, huid, h2] at hw
              obtain ⟨hu', hd'⟩ := hw
              subst hd'
              rfl

/-! ### The claims -/

/-- Claim C1, counterexample: a customer.subscription.updated event with
provider status canceled, a real userId, and an item with period end 100
writes a SubscriptionData with status cancelled and a non-null
subscriptionEndDate, both as the delta passed to the update helper and in the
resulting store; so a written status of cancelled does not imply a null
subscriptionEndDate. -/
theorem C1_counterexample :
    (runWebhook errSubOracle errCustOracle
        (some (.customerSubscriptionUpdated sampleCanceledUpdatedSub))).write =
      some (some "u1",
        { status := some "cancelled", plan := none, customerId := none, subscriptionId := none
          subscriptionEndDate := some (some 100) }) ∧
    storeFind
        (applyWrite [("u1", sampleFullRecord)]
          (runWebhook errSubOracle errCustOracle
            (some (.customerSubscriptionUpdated sampleCanceledUpdatedSub))).write) "u1" =
      some { subscriptionData :=
               { status := some "cancelled", plan := none, customerId := none
                 subscriptionId := none, subscriptionEndDate := some (some 100) }
             otherFields := [] } ∧
    (some (some 100) : Option (Option Nat)) ≠ some none := by
  decide

/-- Claim C1, amended: every SubscriptionData value written by the webhook
handler or the cancel-subscription endpoint with status cancelled has a null
subscriptionEndDate, except when it is written by the
customer.subscription.updated branch for provider status canceled, in which
case the written subscriptionEndDate is the derived period end of the items
of the event, which may be non-null. -/
theorem C1_amended :
    (∀ (rS : String → Except String StripeSubscription)
       (rC : String → Except String Customer)
       (ev : Option WebhookEvent) (u : Option String) (d : SubscriptionData),
      (runWebhook rS rC ev).write = some (u, d) →
      d.status = some "cancelled" →
      d.subscriptionEndDate = some none ∨
        ∃ sub, ev = some (.customerSubscriptionUpdated sub) ∧ sub.status = "canceled" ∧
          d.subscriptionEndDate = some (computeSubscriptionEndDate sub.items)) ∧
    (∀ (cancel : String → Except String String) (uid sid u : Option String)
       (d : SubscriptionData),
      (runCancelSubscription cancel uid sid).write = some (u, d) →
      d.status = some "cancelled" →
      d.subscriptionEndDate = some none) := by
  constructor
  · intro rS rC ev u d hw hs
    cases ev with
    | none => simp [runWebhook] at hw
    | some e =>
      cases e with
      | checkoutSessionCompleted session =>
        simp only [runWebhook] at hw
        have hst := handleCheckoutCompleted_write_status rS session u d hw
        rw [hst] at hs
        exact absurd hs (by decide)
      | invoicePaymentSucceeded invoice =>
        simp only [runWebhook] at hw
        rw [handleInvoicePaymentSucceeded_write_none rS rC invoice] at hw
        exact Option.noConfusion hw
      | customerSubscriptionUpdated sub =>
        simp only [runWebhook] at hw
        obtain ⟨h1, h2⟩ := handleSubscriptionUpdated_write sub u d hw
        rw [h1] at hs
        have hmap : mapUpdatedStatus sub.status = "cancelled" := Option.some.inj hs
        right
        exact ⟨sub, rfl, (mapUpdatedStatus_eq_cancelled sub.status).mp hmap, h2⟩
      | customerSubscriptionDeleted sub =>
        simp only [runWebhook] at hw
        have hd := handleSubscriptionDeleted_write sub u d hw
        left
        rw [hd]
        rfl
      | invoicePaymentFailed invoice =>
        simp only [runWebhook] at hw
        have hst := handleInvoicePaymentFailed_write_status rS invoice u d hw
        rw [hst] at hs
        exact absurd hs (by decide)
      | otherEvent t =>
        simp [runWebhook] at hw
  · intro cancel uid sid u d hw hs
    cases uid with
    | none => simp [runCancelSubscription] at hw
    | some uu =>
      cases sid with
      | none => simp [runCancelSubscription] at hw
      | some ss =>
        by_cases h1 : uu = ""
        · simp [runCancelSubscription, h1] at hw
        · by_cases h2 : ss = ""
          · simp [runCancelSubscription, h1, h2] at hw
          · cases hc : cancel ss with
            | error msg => simp [runCancelSubscription, h1, h2, hc] at hw
            | ok c =>
              simp [runCancelSubscription, h1, h2, hc] at hw
              obtain ⟨hu', hd'⟩ := hw
              subst hd'
              rfl

/-- Claim C1, witness for the amended theorem: the delta written by a
successful cancel-subscription request has a null subscriptionEndDate. -/
theorem C1_amended_witness :
    cancelledSubscriptionData.subscriptionEndDate = some none :=
  C1_amended.2 (fun _ => Except.ok "canceled") (some "u1") (some "sub_1") (some "u1")
    cancelledSubscriptionData (by decide) rfl

/-- Claim C2: evaluation at the failing input. A customer.subscription.deleted
event writes only status and subscriptionEndDate, yet after the write the
stored subscriptionData has lost its plan, customerId and subscriptionId
fields, because the update primitive the code calls replaces the
subscriptionData field wholesale; the spec-modelled merge primitive would
have kept plan equal to monthly. -/
theorem C2_code_bug_eval :
    (runWebhook errSubOracle errCustOracle
        (some (.customerSubscriptionDeleted sampleDeletedSub))).write =
      some (some "u1", cancelledSubscriptionData) ∧
    applyWrite [("u1", sampleFullRecord)]
        (runWebhook errSubOracle errCustOracle
          (some (.customerSubscriptionDeleted sampleDeletedSub))).write =
      [("u1", { subscriptionData := cancelledSubscriptionData, otherFields := [] })] ∧
    (storeFind
        (applyWrite [("u1", sampleFullRecord)]
          (runWebhook errSubOracle errCustOracle
            (some (.customerSubscriptionDeleted sampleDeletedSub))).write) "u1").map
        (fun r => r.subscriptionData.plan) = some none ∧
    (storeFind
        (updateUserSubscription_specMerge [("u1", sampleFullRecord)] (some "u1")
          cancelledSubscriptionData) "u1").map
        (fun r => r.subscriptionData.plan) = some (some "monthly") := by
  decide

/-- Claim C3: for a customer.subscription.updated event whose metadata.userId
is present, truthy and not pending, the written local status is the image of
the provider status under the fixed table (active to active, past_due to
expired, canceled to cancelled, unpaid to expired) with default expired for
any other status, and the write carries the derived period end. -/
theorem C3_updated_status_mapping (rS : String → Except String StripeSubscription)
    (rC : String → Except String Customer) (sub : StripeSubscription)
    (m : SubMetadata) (u : String)
    (hm : sub.metadata = some m) (hu : m.userId = some u)
    (hne : u ≠ "") (hp : u ≠ "pending") :
    (runWebhook rS rC (some (.customerSubscriptionUpdated sub))).write =
      some (some u,
        { status := some
            (if sub.status = "active" then "active"
             else if sub.status = "past_due" then "expired"
             else if sub.status = "canceled" then "cancelled"
             else if sub.status = "unpaid" then "expired"
             else "expired")
          plan := none
          customerId := none
          subscriptionId := none
          subscriptionEndDate := some (computeSubscriptionEndDate sub.items) }) := by
  simp only [runWebhook]
  simp [handleSubscriptionUpdated, hm, hu, hne, hp, mapUpdatedStatus_spec]

/-- Claim C3, witness: a provider status outside the table, unknown_status,
yields local status expired. -/
theorem C3_updated_status_mapping_witness :
    (runWebhook errSubOracle errCustOracle
        (some (.customerSubscriptionUpdated
          { id := "sub_1", status := "unknown_status", customer := "cus_1"
            metadata := some { userId := some "u1" }
            items := none, current_period_end := none }))).write =
      some (some "u1",
        { status := some "expired", plan := none, customerId := none, subscriptionId := none
          subscriptionEndDate := some none }) := by
  rw [C3_updated_status_mapping errSubOracle errCustOracle
    { id := "sub_1", status := "unknown_status", customer := "cus_1"
      metadata := some { userId := some "u1" }
      items := none, current_period_end := none }
    { userId := some "u1" } "u1" rfl rfl (by decide) (by decide)]
  decide

/-- Claim C4: in the shared period-end derivation, the derived value is
exactly the minimum of the present (truthy) item period ends and null when
none is present; on items with period ends 100, 50 and null the result is
epoch 50, and on all-null items it is null. The same definition is the one
called by all four deriving branches. -/
theorem C4_period_end_derivation :
    (∀ items : Option SubItems,
      computeSubscriptionEndDate items = specPeriodEnd (itemEpochs items)) ∧
    computeSubscriptionEndDate (some { data := some [
      { current_period_end := some 100, price := none },
      { current_period_end := some 50, price := none },
      { current_period_end := none, price := none }] }) = some 50 ∧
    computeSubscriptionEndDate (some { data := some [
      { current_period_end := none, price := none },
      { current_period_end := none, price := none }] }) = none :=
  ⟨computeSubscriptionEndDate_eq_spec, by decide, by decide⟩

/-- Claim C5: when signature verification fails, the webhook endpoint answers
400, performs no store write, and processes no event; the store is unchanged. -/
theorem C5_invalid_signature_rejected (rS : String → Except String StripeSubscription)
    (rC : String → Except String Customer) (store : Store) :
    (runWebhook rS rC none).httpStatus = 400 ∧
    (runWebhook rS rC none).write = none ∧
    (runWebhook rS rC none).processedType = none ∧
    applyWrite store (runWebhook rS rC none).write = store :=
  ⟨rfl, rfl, rfl, rfl⟩

/-- Claim C6: verify-payment answers 400 without an email; reports no valid
payment when no customer matches, when the customer has no active
subscription, or when the found subscription has a period end strictly before
now despite an active provider status; and otherwise reports a valid
payment. -/
theorem C6_verify_payment :
    (∀ (lc : Except String (List Customer))
       (ls : String → Except String (List StripeSubscription)) (now : Nat),
      runVerifyPayment none lc ls now = .badRequest "Email is required") ∧
    (∀ (e : String) (ls : String → Except String (List StripeSubscription)) (now : Nat),
      e ≠ "" → runVerifyPayment (some e) (.ok []) ls now = .payment false) ∧
    (∀ (e : String) (c : Customer) (cs : List Customer)
       (ls : String → Except String (List StripeSubscription)) (now : Nat),
      e ≠ "" → ls c.id = .ok [] →
      runVerifyPayment (some e) (.ok (c :: cs)) ls now = .payment false) ∧
    (∀ (e : String) (c : Customer) (cs : List Customer) (sub : StripeSubscription)
       (subs : List StripeSubscription)
       (ls : String → Except String (List StripeSubscription)) (now pe : Nat),
      e ≠ "" → ls c.id = .ok (sub :: subs) →
      sub.status = "active" → sub.current_period_end = some pe → pe < now →
      runVerifyPayment (some e) (.ok (c :: cs)) ls now = .payment false) ∧
    (∀ (e : String) (c : Customer) (cs : List Customer) (sub : StripeSubscription)
       (subs : List StripeSubscription)
       (ls : String → Except String (List StripeSubscription)) (now : Nat),
      e ≠ "" → ls c.id = .ok (sub :: subs) →
      subExpired sub now = false →
      runVerifyPayment (some e) (.ok (c :: cs)) ls now = .payment true) := by
  refine ⟨?_, ?_, ?_, ?_, ?_⟩
  · intro lc ls now; rfl
  · intro e ls now he
    simp [runVerifyPayment, he]
  · intro e c cs ls now he hls
    simp [runVerifyPayment, he, hls]
  · intro e c cs sub subs ls now pe he hls hst hcpe hlt
    simp [runVerifyPayment, he, hls, subExpired, hcpe, hlt]
  · intro e c cs sub subs ls now he hls hexp
    simp [runVerifyPayment, he, hls, hexp]

/-- Claim C6, witness: an active subscription whose period end 5 is before
now 10 reports no valid payment. -/
theorem C6_verify_payment_witness :
    runVerifyPayment (some "user@example.com")
      (.ok [{ id := "cus_1", email := "user@example.com" }])
      (fun _ => .ok
        [{ id := "sub_1", status := "active", customer := "cus_1"
           metadata := none, items := none, current_period_end := some 5 }]) 10 =
      .payment false :=
  C6_verify_payment.2.2.2.1 "user@example.com"
    { id := "cus_1", email := "user@example.com" } []
    { id := "sub_1", status := "active", customer := "cus_1"
      metadata := none, items := none, current_period_end := some 5 } []
    (fun _ => .ok
      [{ id := "sub_1", status := "active", customer := "cus_1"
         metadata := none, items := none, current_period_end := some 5 }]) 10 5
    (by decide) rfl rfl rfl (by decide)

/-- Claim C7: with both userId and subscriptionId present and truthy, a
failing provider cancellation yields 500 and leaves the store untouched; a
successful one writes status cancelled with a null subscriptionEndDate
through the update helper and answers 200. -/
theorem C7_cancel_subscription (cancel : String → Except String String) (u s : String)
    (store : Store) (hu : u ≠ "") (hs : s ≠ "") :
    (∀ msg, cancel s = .error msg →
      (runCancelSubscription cancel (some u) (some s)).httpStatus = 500 ∧
      (runCancelSubscription cancel (some u) (some s)).write = none ∧
      applyWrite store (runCancelSubscription cancel (some u) (some s)).write = store) ∧
    (∀ c, cancel s = .ok c →
      (runCancelSubscription cancel (some u) (some s)).httpStatus = 200 ∧
      (runCancelSubscription cancel (some u) (some s)).write =
        some (some u, cancelledSubscriptionData) ∧
      cancelledSubscriptionData.status = some "cancelled" ∧
      cancelledSubscriptionData.subscriptionEndDate = some none ∧
      applyWrite store (runCancelSubscription cancel (some u) (some s)).write =
        updateUserSubscription store (some u) cancelledSubscriptionData ∧
      (∀ r, storeFind store u = some r →
        storeFind (applyWrite store (runCancelSubscription cancel (some u) (some s)).write) u =
          some { r with subscriptionData := cancelledSubscriptionData })) := by
  constructor
  · intro msg hc
    refine ⟨?_, ?_, ?_⟩ <;> simp [runCancelSubscription, hu, hs, hc, applyWrite]
  · intro c hc
    have hw : (runCancelSubscription cancel (some u) (some s)).write =
        some (some u, cancelledSubscriptionData) := by
      simp [runCancelSubscription, hu, hs, hc]
    refine ⟨?_, hw, rfl, rfl, ?_, ?_⟩
    · simp [runCancelSubscription, hu, hs, hc]
    · rw [hw]; rfl
    · intro r hr
      rw [hw]
      exact updateUserSubscription_find store u cancelledSubscriptionData r hu hr

/-- Claim C7, witness: a successful concrete cancellation answers 200 and
writes the cancelled delta. -/
theorem C7_cancel_subscription_witness :
    (runCancelSubscription (fun _ => Except.ok "canceled") (some "u1") (some "sub_1")).httpStatus
        = 200 ∧
    (runCancelSubscription (fun _ => Except.ok "canceled") (some "u1") (some "sub_1")).write =
      some (some "u1", cancelledSubscriptionData) := by
  have h := (C7_cancel_subscription (fun _ => Except.ok "canceled") "u1" "sub_1" []
    (by decide) (by decide)).2 "canceled" rfl
  exact ⟨h.1, h.2.1⟩

/-- Claim C8: applying a customer.subscription.deleted event with a present,
truthy metadata.userId twice leaves the same store as applying it once, and
the once-applied store holds exactly the cancelled delta at that user. -/
theorem C8_deleted_idempotent (rS : String → Except String StripeSubscription)
    (rC : String → Except String Customer) (sub : StripeSubscription)
    (m : SubMetadata) (u : String) (store : Store)
    (hm : sub.metadata = some m) (hu : m.userId = some u) (hne : u ≠ "") :
    applyWrite (applyWrite store (runWebhook rS rC (some (.customerSubscriptionDeleted sub))).write)
        (runWebhook rS rC (some (.customerSubscriptionDeleted sub))).write =
      applyWrite store (runWebhook rS rC (some (.customerSubscriptionDeleted sub))).write ∧
    (runWebhook rS rC (some (.customerSubscriptionDeleted sub))).write =
      some (some u, cancelledSubscriptionData) ∧
    (∀ r, storeFind store u = some r →
      storeFind (applyWrite store
          (runWebhook rS rC (some (.customerSubscriptionDeleted sub))).write) u =
        some { r with subscriptionData := cancelledSubscriptionData }) := by
  have hw : (runWebhook rS rC (some (.customerSubscriptionDeleted sub))).write =
      some (some u, cancelledSubscriptionData) := by
    simp [runWebhook, handleSubscriptionDeleted, hm, hu, hne]
  refine ⟨?_, hw, ?_⟩
  · rw [hw]
    exact updateUserSubscription_idem store (some u) cancelledSubscriptionData
  · intro r hr
    rw [hw]
    exact updateUserSubscription_find store u cancelledSubscriptionData r hne hr

/-- Claim C8, witness: replaying the concrete deleted event over a concrete
store equals applying it once. -/
theorem C8_deleted_idempotent_witness :
    applyWrite
        (applyWrite [("u1", sampleFullRecord)]
          (runWebhook errSubOracle errCustOracle
            (some (.customerSubscriptionDeleted sampleDeletedSub))).write)
        (runWebhook errSubOracle errCustOracle
          (some (.customerSubscriptionDeleted sampleDeletedSub))).write =
      applyWrite [("u1", sampleFullRecord)]
        (runWebhook errSubOracle errCustOracle
          (some (.customerSubscriptionDeleted sampleDeletedSub))).write :=
  (C8_deleted_idempotent errSubOracle errCustOracle sampleDeletedSub
    { userId := some "u1" } "u1" [("u1", sampleFullRecord)] rfl rfl (by decide)).1

/-- Claim C9: the restore-subscription response does not depend on the userId
of the request; with the same email and the same provider responses, any two
userId values produce the same response. -/
theorem C9_restore_independent_of_userId (u1 u2 email : Option String)
    (lc : Except String (List Customer))
    (ls : String → Except String (List StripeSubscription)) :
    runRestoreSubscription u1 email lc ls = runRestoreSubscription u2 email lc ls := rfl

/-- Claim C10: an item whose current_period_end is the epoch 0 is excluded by
the truthiness filter in the period-end derivation: a subscription whose only
item ends at epoch 0 derives a null period end, and prepending such an item
never changes the derived value. -/
theorem C10_zero_epoch_treated_missing :
    computeSubscriptionEndDate
        (some { data := some [{ current_period_end := some 0, price := none }] }) = none ∧
    (∀ ds : List SubItem,
      computeSubscriptionEndDate
          (some { data := some ({ current_period_end := some 0, price := none } :: ds) }) =
        computeSubscriptionEndDate (some { data := some ds })) := by
  refine ⟨by decide, ?_⟩
  intro ds
  rw [computeSubscriptionEndDate_eq_spec, computeSubscriptionEndDate_eq_spec]
  simp [itemEpochs, specPeriodEnd]
